import Mathlib

set_option maxRecDepth 10000

/- Shallow embedding of the verified-boot decision core of the UEFI
   bootloader: the boot-target selector, BCB handling and image validation
   from kernelflinger.c, and the AVB adapter (trust-state mapping, loaders,
   rollback-index update, command-line building) from the companion AVB
   source file.  External collaborators (UEFI variable store, disk, the
   libavb verifier, key input) are modelled as environment records whose
   fields stand for the observable results of those calls. -/

/-- Boot states (trust colors), with the numeric values of the source's
`BOOT_STATE_*` constants (a `UINT8`). -/
def BOOT_STATE_GREEN : Nat := 0

def BOOT_STATE_YELLOW : Nat := 1

def BOOT_STATE_ORANGE : Nat := 2

def BOOT_STATE_RED : Nat := 3

/-- The `enum boot_target` of targets.h, as used by kernelflinger.c. -/
inductive BootTarget where
  | NORMAL_BOOT
  | RECOVERY
  | FASTBOOT
  | CHARGER
  | POWER_OFF
  | MEMORY
  | ESP_BOOTIMAGE
  | ESP_EFI_BINARY
  | DNX
  | CRASHMODE
  | EXIT_SHELL
  | UNKNOWN_TARGET
deriving DecidableEq

/-- The EFI status codes the modelled functions return. -/
inductive EfiStatus where
  | SUCCESS
  | INVALID_PARAMETER
  | LOAD_ERROR
  | NOT_FOUND
  | OUT_OF_RESOURCES
  | DEVICE_ERROR
deriving DecidableEq

/-- `AvbSlotVerifyResult` from libavb. -/
inductive AvbSlotVerifyResult where
  | OK
  | ERROR_OOM
  | ERROR_IO_FAILURE
  | ERROR_VERIFICATION
  | ERROR_ROLLBACK_INDEX
  | ERROR_PUBLIC_KEY_REJECTED
  | ERROR_INVALID_ARGUMENT
  | ERROR_UNSUPPORTED_VERSION
  | ERROR_INVALID_METADATA
deriving DecidableEq

/-- `AvbABFlowResult` from libavb's A/B support. -/
inductive AvbABFlowResult where
  | OK
  | OK_WITH_VERIFICATION_ERROR
  | ERROR_OOM
  | ERROR_IO_FAILURE
  | ERROR_NO_BOOTABLE_SLOTS
  | ERROR_INVALID_ARGUMENT
deriving DecidableEq

/-- `BOOT_MAGIC` ("ANDROID!"), the first `BOOT_MAGIC_SIZE = 8` bytes of a
valid boot image header. -/
def BOOT_MAGIC : List Char := ['A', 'N', 'D', 'R', 'O', 'I', 'D', '!']

/-- One loaded partition (`AvbPartitionData`); `magic` holds the first
8 bytes of its data, the only part of the payload this core inspects
in the adapter. -/
structure AvbPartitionData where
  magic : List Char
deriving DecidableEq

/-- `AvbSlotVerifyData`: the partitions the verifier loaded and the slot
suffix it resolved (A/B flow). -/
structure AvbSlotVerifyData where
  loaded_partitions : List AvbPartitionData
  ab_suffix : List Char
deriving DecidableEq

/-- `get_avb_result`: checks the loaded partition's header magic, then maps
the verifier outcome and `allow_verification_error` onto the in/out
`boot_state`.  Returns the EFI status together with the updated state. -/
def get_avb_result (slot_data : Option AvbSlotVerifyData)
    (allow_verification_error : Bool) (verify_result : AvbSlotVerifyResult)
    (boot_state : Nat) : EfiStatus × Nat :=
  match slot_data with
  | none => (.INVALID_PARAMETER, boot_state)
  | some d =>
    match d.loaded_partitions with
    | [] => (.LOAD_ERROR, boot_state)
    | boot :: _ =>
      if boot.magic ≠ BOOT_MAGIC then (.NOT_FOUND, boot_state)
      else
        match verify_result with
        | .OK =>
          (.SUCCESS,
            if allow_verification_error = true ∧ boot_state < BOOT_STATE_ORANGE
            then BOOT_STATE_ORANGE else boot_state)
        | .ERROR_VERIFICATION | .ERROR_ROLLBACK_INDEX | .ERROR_PUBLIC_KEY_REJECTED =>
          (.SUCCESS,
            if allow_verification_error = true ∧ boot_state ≤ BOOT_STATE_ORANGE
            then BOOT_STATE_ORANGE else BOOT_STATE_RED)
        | _ =>
          (.SUCCESS,
            if allow_verification_error = true ∧ boot_state ≤ BOOT_STATE_ORANGE
            then BOOT_STATE_ORANGE else BOOT_STATE_RED)

/-- `get_avb_flow_result`: the A/B-flow variant of `get_avb_result`. -/
def get_avb_flow_result (slot_data : Option AvbSlotVerifyData)
    (allow_verification_error : Bool) (flow_result : AvbABFlowResult)
    (boot_state : Nat) : EfiStatus × Nat :=
  match slot_data with
  | none => (.INVALID_PARAMETER, boot_state)
  | some d =>
    match d.loaded_partitions with
    | [] => (.LOAD_ERROR, boot_state)
    | boot :: _ =>
      if boot.magic ≠ BOOT_MAGIC then (.NOT_FOUND, boot_state)
      else
        match flow_result with
        | .OK =>
          (.SUCCESS,
            if allow_verification_error = true ∧ boot_state < BOOT_STATE_ORANGE
            then BOOT_STATE_ORANGE else boot_state)
        | .OK_WITH_VERIFICATION_ERROR | .ERROR_OOM | .ERROR_IO_FAILURE
        | .ERROR_NO_BOOTABLE_SLOTS | .ERROR_INVALID_ARGUMENT =>
          (.SUCCESS,
            if allow_verification_error = true ∧ boot_state ≤ BOOT_STATE_ORANGE
            then BOOT_STATE_ORANGE else BOOT_STATE_RED)

/-- Environment of the AVB loaders: whether `avb_init` succeeds, the slot
configuration, and the observable behaviour of the external verifier
(`avb_slot_verify` as a function of the slot suffix and of the
ALLOW_VERIFICATION_ERROR flag bit, `avb_ab_flow` as a function of that
flag bit). -/
structure AvbLoadEnv where
  avbInitOk : Bool
  useSlot : Bool
  slotActive : Option (List Char)
  slotVerify : List Char → Bool → AvbSlotVerifyResult × Option AvbSlotVerifyData
  abFlow : Bool → AvbABFlowResult × Option AvbSlotVerifyData

/-- The slot suffix `android_image_load_partition_avb` passes to the
verifier: the active suffix under `use_slot()`, `""` when that is null or
slots are unused. -/
def avbActiveSuffix (env : AvbLoadEnv) : List Char :=
  if env.useSlot then
    match env.slotActive with
    | some s => s
    | none => []
  else []

/-- `android_image_load_partition_avb`: computes
`allow_verification_error = (boot_state != GREEN)`, runs the verifier,
maps the result through `get_avb_result`; on any adapter error the
returned image is null and `boot_state` is forced RED.  Result:
(status, returned bootimage, new boot_state). -/
def android_image_load_partition_avb (env : AvbLoadEnv) (boot_state : Nat) :
    EfiStatus × Option AvbPartitionData × Nat :=
  let allow_verification_error : Bool := boot_state != BOOT_STATE_GREEN
  if env.avbInitOk then
    let vr := env.slotVerify (avbActiveSuffix env) allow_verification_error
    let r := get_avb_result vr.2 allow_verification_error vr.1 boot_state
    if r.1 = EfiStatus.SUCCESS then
      (EfiStatus.SUCCESS,
        (match vr.2 with
         | some d => d.loaded_partitions.head?
         | none => none),
        r.2)
    else (r.1, none, BOOT_STATE_RED)
  else (EfiStatus.OUT_OF_RESOURCES, none, BOOT_STATE_RED)

/-- Result record of the A/B loader (the fourth field models the
`slot_set_active_cached` call on the success path). -/
structure AbLoadResult where
  status : EfiStatus
  bootimage : Option AvbPartitionData
  boot_state : Nat
  cachedSuffix : Option (List Char)
deriving DecidableEq

/-- `android_image_load_partition_avb_ab` (the `USE_SLOT` build):
`allow_verification_error = (boot_state != GREEN)`, then `avb_ab_flow`
mapped through `get_avb_flow_result`; on the success path the resolved
slot suffix is cached. -/
def android_image_load_partition_avb_ab (env : AvbLoadEnv) (boot_state : Nat) :
    AbLoadResult :=
  let allow_verification_error : Bool := boot_state != BOOT_STATE_GREEN
  let fr := env.abFlow allow_verification_error
  let r := get_avb_flow_result fr.2 allow_verification_error fr.1 boot_state
  if r.1 = EfiStatus.SUCCESS then
    { status := EfiStatus.SUCCESS
      bootimage :=
        match fr.2 with
        | some d => d.loaded_partitions.head?
        | none => none
      boot_state := r.2
      cachedSuffix :=
        match fr.2 with
        | some d => some d.ab_suffix
        | none => none }
  else { status := r.1, bootimage := none, boot_state := BOOT_STATE_RED,
         cachedSuffix := none }

/-- `AVB_MAX_NUMBER_OF_ROLLBACK_INDEX_LOCATIONS` from libavb. -/
def AVB_MAX_NUMBER_OF_ROLLBACK_INDEX_LOCATIONS : Nat := 32

/-- The location loop of `avb_update_stored_rollback_indexes_for_slot`.
`rollback` is `slot_data->rollback_indexes`, `readOk`/`writeOk` tell
whether `ops->read_rollback_index` / `ops->write_rollback_index` succeed
at a location, and `stored` is the persistent store, threaded through. -/
def rollbackStep (rollback : Nat → Nat) (readOk writeOk : Nat → Bool) :
    List Nat → (Nat → Nat) → Bool × (Nat → Nat)
  | [], stored => (true, stored)
  | n :: rest, stored =>
    if 0 < rollback n then
      if readOk n then
        if stored n < rollback n then
          if writeOk n then
            rollbackStep rollback readOk writeOk rest
              (fun m => if m = n then rollback n else stored m)
          else (false, stored)
        else rollbackStep rollback readOk writeOk rest stored
      else (false, stored)
    else rollbackStep rollback readOk writeOk rest stored

/-- `avb_update_stored_rollback_indexes_for_slot`: iterates all rollback
locations in ascending order; returns whether every read and needed write
succeeded, together with the store afterwards. -/
def avb_update_stored_rollback_indexes_for_slot (rollback : Nat → Nat)
    (readOk writeOk : Nat → Bool) (stored : Nat → Nat) : Bool × (Nat → Nat) :=
  rollbackStep rollback readOk writeOk
    (List.range AVB_MAX_NUMBER_OF_ROLLBACK_INDEX_LOCATIONS) stored

/-- The key events of ui.h this core compares against (`EV_DOWN` is the
magic key). -/
inductive UiEvent where
  | EV_NONE
  | EV_UP
  | EV_DOWN
  | EV_POWER
deriving DecidableEq

/-- Environment of `check_magic_key`: the `MagicKeyTimeout` firmware
variable (absent when unreadable), the key event delivered by
`ReadKeyStroke` at each poll iteration (none = `EFI_NOT_READY`), and the
result of `ui_enforce_key_held(FASTBOOT_HOLD_DELAY, MAGIC_KEY)`. -/
structure MagicKeyEnv where
  timeoutVar : Option Nat
  readKey : Nat → Option UiEvent
  enforceKeyHeld : Bool

/-- `EFI_RESET_WAIT_MS`, the default magic-key poll timeout. -/
def EFI_RESET_WAIT_MS : Nat := 200

/-- `MAGIC_KEY` is the down-arrow event. -/
def MAGIC_KEY : UiEvent := .EV_DOWN

/-- `check_magic_key`: clamp the timeout variable, poll `ReadKeyStroke`
once per millisecond for iterations `0, …, wait_ms` stopping at the first
delivered key, and return FASTBOOT only when that key is the magic key and
it stays held for `FASTBOOT_HOLD_DELAY` (2 s). -/
def check_magic_key (env : MagicKeyEnv) : BootTarget :=
  let wait_ms : Nat :=
    match env.timeoutVar with
    | none => EFI_RESET_WAIT_MS
    | some w => if w > 1000 then EFI_RESET_WAIT_MS else w
  match (List.range (wait_ms + 1)).findSome? env.readKey with
  | none => .NORMAL_BOOT
  | some ev =>
    if ev ≠ MAGIC_KEY then .NORMAL_BOOT
    else if env.enforceKeyHeld then .FASTBOOT
    else .NORMAL_BOOT

/-- A magic-key press seen at the first poll and released before the 2 s
hold requirement. -/
def shortPressEnv : MagicKeyEnv :=
  { timeoutVar := none
    readKey := fun i => if i = 0 then some .EV_DOWN else none
    enforceKeyHeld := false }

/-- The same press, but held for the full 2 s. -/
def longPressEnv : MagicKeyEnv :=
  { shortPressEnv with enforceKeyHeld := true }

/-- The BCB record (`struct bootloader_message`) fields this core
touches; `recovery` and `stage` are carried through opaquely. -/
structure BCB where
  command : List Char
  status : List Char
  recovery : List Char
  stage : List Char
deriving DecidableEq

/-- Environment of `check_bcb`: the result of `read_bcb` on `misc`
(none = read error), `file_exists` on the ESP, and the static
`name_to_boot_target` table. -/
structure BcbEnv where
  readBcb : Option BCB
  fileExists : List Char → Bool
  nameToTarget : List Char → BootTarget

/-- What `check_bcb` produces: the chosen target, the ESP path for the
`ESP_*` targets, the oneshot flag, and the record passed to `write_bcb`
when a write-back happens. -/
structure BcbOut where
  target : BootTarget
  target_path : Option (List Char)
  oneshot : Bool
  written : Option BCB
deriving DecidableEq

/-- The "boot-" command of a persistent BCB target. -/
def bootCmdStr : List Char := ['b', 'o', 'o', 't', '-']

/-- The "bootonce-" command of a one-shot BCB target. -/
def bootonceCmdStr : List Char := ['b', 'o', 'o', 't', 'o', 'n', 'c', 'e', '-']

def dotEfiLower : List Char := ['.', 'e', 'f', 'i']

def dotEfiUpper : List Char := ['.', 'E', 'F', 'I']

/-- `check_bcb`: on a successful `read_bcb`, remember whether `status` is
non-empty (dirty), clear `status`, parse `command` ("boot-" keeps the
command, "bootonce-" erases it, sets dirty and oneshot), write the record
back when dirty, and resolve the target name (an ESP path starting with
a backslash, or the static name table). -/
def check_bcb (env : BcbEnv) : BcbOut :=
  match env.readBcb with
  | none => { target := .NORMAL_BOOT, target_path := none, oneshot := false, written := none }
  | some bcb =>
    let dirty0 : Bool := !bcb.status.isEmpty
    let isBoot : Bool := bootCmdStr.isPrefixOf bcb.command
    let isBootonce : Bool := !isBoot && bootonceCmdStr.isPrefixOf bcb.command
    let target? : Option (List Char) :=
      if isBoot then some (bcb.command.drop 5)
      else if isBootonce then some (bcb.command.drop 9)
      else none
    let newCommand : List Char := if isBootonce then [] else bcb.command
    let dirty : Bool := dirty0 || isBootonce
    let written : Option BCB :=
      if dirty then
        some { command := newCommand, status := [], recovery := bcb.recovery,
               stage := bcb.stage }
      else none
    let tp : BootTarget × Option (List Char) :=
      match target? with
      | none => (.NORMAL_BOOT, none)
      | some tgt =>
        match tgt with
        | '\\' :: _ =>
          if env.fileExists tgt then
            if tgt.length > 4 then
              ((if tgt.drop (tgt.length - 4) = dotEfiLower ∨
                   tgt.drop (tgt.length - 4) = dotEfiUpper
                then .ESP_EFI_BINARY else .ESP_BOOTIMAGE), some tgt)
            else (.NORMAL_BOOT, none)
          else (.NORMAL_BOOT, none)
        | _ =>
          let t := env.nameToTarget tgt
          if t ≠ .UNKNOWN_TARGET then (t, none) else (.NORMAL_BOOT, none)
    { target := tp.1, target_path := tp.2, oneshot := isBootonce, written := written }

/-- Environment of `choose_boot_target`: the target each prioritized check
would report in the current environment (each check is a deterministic
function of firmware state, modelled by its result). -/
structure TargetEnv where
  check_command_line : BootTarget
  check_fastboot_sentinel : BootTarget
  check_magic_key : BootTarget
  check_watchdog : BootTarget
  check_battery_inserted : BootTarget
  check_bcb : BootTarget
  check_loader_entry_one_shot : BootTarget
  check_battery : BootTarget
  check_charge_mode : BootTarget
deriving DecidableEq

/-- `choose_boot_target`: the prioritized if-chain of kernelflinger.c.
Each check's result is consulted in order; note the reboot-target check,
whose result wins only when it is neither DNX nor NORMAL_BOOT. -/
def choose_boot_target (env : TargetEnv) : BootTarget :=
  if env.check_command_line ≠ .NORMAL_BOOT then env.check_command_line
  else if env.check_fastboot_sentinel ≠ .NORMAL_BOOT then env.check_fastboot_sentinel
  else if env.check_magic_key ≠ .NORMAL_BOOT then env.check_magic_key
  else if env.check_watchdog ≠ .NORMAL_BOOT then env.check_watchdog
  else if env.check_battery_inserted ≠ .NORMAL_BOOT then env.check_battery_inserted
  else if env.check_bcb ≠ .NORMAL_BOOT then env.check_bcb
  else if env.check_loader_entry_one_shot ≠ .DNX ∧
          env.check_loader_entry_one_shot ≠ .NORMAL_BOOT then
    env.check_loader_entry_one_shot
  else if env.check_battery ≠ .NORMAL_BOOT then env.check_battery
  else env.check_charge_mode

/-- Modelled from the spec: "the first rule producing a non-NORMAL_BOOT
result wins".  Used only to compare the selector against the spec's
words. -/
def first_non_normal : List BootTarget → BootTarget
  | [] => .NORMAL_BOOT
  | t :: ts => if t = .NORMAL_BOOT then first_non_normal ts else t

/-- Modelled from the spec: the selector as the spec sentence describes
it, first non-NORMAL_BOOT check result in priority order. -/
def choose_boot_target_spec (env : TargetEnv) : BootTarget :=
  first_non_normal
    [env.check_command_line, env.check_fastboot_sentinel, env.check_magic_key,
     env.check_watchdog, env.check_battery_inserted, env.check_bcb,
     env.check_loader_entry_one_shot, env.check_battery, env.check_charge_mode]

/-- An environment whose only matching checks are a DNX reboot target and
a low battery. -/
def dnxEnv : TargetEnv :=
  { check_command_line := .NORMAL_BOOT
    check_fastboot_sentinel := .NORMAL_BOOT
    check_magic_key := .NORMAL_BOOT
    check_watchdog := .NORMAL_BOOT
    check_battery_inserted := .NORMAL_BOOT
    check_bcb := .NORMAL_BOOT
    check_loader_entry_one_shot := .DNX
    check_battery := .CHARGER
    check_charge_mode := .NORMAL_BOOT }

/-- The `/boot` target name. -/
def bootNameStr : List Char := ['/', 'b', 'o', 'o', 't']

/-- The `/recovery` target name. -/
def recoveryNameStr : List Char := ['/', 'r', 'e', 'c', 'o', 'v', 'e', 'r', 'y']

/-- The `expected` target-name label of `validate_bootimage`'s switch. -/
def expectedLabel (recovery_in_boot : Bool) : BootTarget → Option (List Char)
  | .NORMAL_BOOT | .MEMORY => some bootNameStr
  | .CHARGER => some bootNameStr
  | .RECOVERY => some (if recovery_in_boot then bootNameStr else recoveryNameStr)
  | .ESP_BOOTIMAGE => some bootNameStr
  | _ => none

/-- The `expected2` (multistage-OTA) label of `validate_bootimage`. -/
def expectedLabel2 : BootTarget → Option (List Char)
  | .NORMAL_BOOT | .MEMORY => some recoveryNameStr
  | _ => none

/-- `validate_bootimage`: `verify_state` and `target_name` are what
`verify_android_boot_image` reported for the image; a RED verification is
returned as is, otherwise the image's declared target name must match the
expected label for the boot target (with `/recovery` also accepted in
normal boot for multistage OTA), else RED. -/
def validate_bootimage (recovery_in_boot : Bool) (verify_state : Nat)
    (target_name : List Char) (boot_target : BootTarget) : Nat :=
  if verify_state = BOOT_STATE_RED then BOOT_STATE_RED
  else if expectedLabel recovery_in_boot boot_target ≠ some target_name ∧
          expectedLabel2 boot_target ≠ some target_name then
    BOOT_STATE_RED
  else verify_state

/-- The load/validate stage of `efi_main` (lines around the
`load_boot_image` call): a load error forces RED; otherwise the validation
verdict is adopted unless the incoming state is ORANGE, which is kept. -/
def efi_main_update_boot_state (load_ok : Bool) (boot_state : Nat)
    (validated : Nat) : Nat :=
  if load_ok then
    if boot_state ≠ BOOT_STATE_ORANGE then validated else boot_state
  else BOOT_STATE_RED

/-- `AVB_ROOTFS_PREFIX`, the rootfs fragment of the command-line builder. -/
def avbRootfsFragment : List Char := "skip_initramfs rootwait ro init=/init".toList

/-- The `androidboot.slot_suffix=<suffix>` fragment. -/
def slotSuffixFragment (s : List Char) : List Char :=
  "androidboot.slot_suffix=".toList ++ s

/-- The `DISABLE_AVB_ROOTFS_PREFIX "PARTUUID=%g"` fragment,
` root=PARTUUID=<system-partition-uuid>`. -/
def rootPartuuidFragment (u : List Char) : List Char :=
  " root=PARTUUID=".toList ++ u

/-- The substring `avb_strstr` looks for in the verified cmdline. -/
def rootSubstr : List Char := "root=".toList

/-- `avb_strstr` as a predicate: does `needle` occur in the haystack? -/
def strstrFound (needle : List Char) : List Char → Bool
  | [] => needle.isPrefixOf []
  | x :: xs => needle.isPrefixOf (x :: xs) || strstrFound needle xs

/-- Environment of the command-line builder: `use_slot()`, the active slot
suffix, and the system partition UUID `gpt_get_partition_uuid` reports
(none on failure). -/
structure SlotCmdEnv where
  useSlot : Bool
  slotActive : Option (List Char)
  systemUuid : Option (List Char)
deriving DecidableEq

/-- `avb_prepend_command_line_rootfs`: prepends the rootfs fragment unless
the target is RECOVERY or MEMORY, and only when slots are in use.
The command line is modelled as the list of prepended fragments, most
recent first (`prepend_command_line f c = f :: c`). -/
def avb_prepend_command_line_rootfs (useSlot : Bool) (boot_target : BootTarget)
    (cmdline : List (List Char)) : List (List Char) :=
  if boot_target = .RECOVERY ∨ boot_target = .MEMORY then cmdline
  else if useSlot then avbRootfsFragment :: cmdline
  else cmdline

/-- `prepend_slot_command_line`: runs the rootfs prepend, then (slots in
use) prepends the slot-suffix fragment when an active slot exists, and
prepends ` root=PARTUUID=<uuid>` when the verified cmdline does not
contain `root=` — failing when the system partition UUID cannot be
resolved. -/
def prepend_slot_command_line (env : SlotCmdEnv) (boot_target : BootTarget)
    (vb_cmdline : Option (List Char)) (cmdline : List (List Char)) :
    EfiStatus × List (List Char) :=
  let c1 := avb_prepend_command_line_rootfs env.useSlot boot_target cmdline
  if env.useSlot then
    let c2 :=
      match env.slotActive with
      | some s => slotSuffixFragment s :: c1
      | none => c1
    match vb_cmdline with
    | some vc =>
      if strstrFound rootSubstr vc = false then
        match env.systemUuid with
        | none => (.DEVICE_ERROR, c2)
        | some u => (.SUCCESS, rootPartuuidFragment u :: c2)
      else (.SUCCESS, c2)
    | none => (.SUCCESS, c2)
  else (.SUCCESS, c1)

/-- A slot-enabled environment with active slot `_a` and a resolvable
system UUID, used on concrete inputs. -/
def slotCmdEnvA : SlotCmdEnv :=
  { useSlot := true, slotActive := some ['_', 'a'], systemUuid := some ['u'] }

/-- A partition whose first 8 bytes are a valid boot image magic. -/
def goodPartition : AvbPartitionData := { magic := BOOT_MAGIC }

/-- A partition whose first 8 bytes are not `BOOT_MAGIC`. -/
def badPartition : AvbPartitionData := { magic := ['X', 'X'] }

/-- Verifier data holding one valid-magic partition. -/
def goodSlotData : AvbSlotVerifyData :=
  { loaded_partitions := [goodPartition], ab_suffix := ['_', 'a'] }

/-- Verifier data holding one wrong-magic partition. -/
def badSlotData : AvbSlotVerifyData :=
  { loaded_partitions := [badPartition], ab_suffix := ['_', 'a'] }

/-- Loader environment whose verifier always reports OK with a
valid-magic payload. -/
def goodLoadEnv : AvbLoadEnv :=
  { avbInitOk := true
    useSlot := false
    slotActive := none
    slotVerify := fun _ _ => (.OK, some goodSlotData)
    abFlow := fun _ => (.OK, some goodSlotData) }

/-- Loader environment whose verifier always reports OK but with a
wrong-magic payload. -/
def badMagicLoadEnv : AvbLoadEnv :=
  { avbInitOk := true
    useSlot := false
    slotActive := none
    slotVerify := fun _ _ => (.OK, some badSlotData)
    abFlow := fun _ => (.OK, some badSlotData) }

/-- A BCB holding a one-shot recovery command and a stale status. -/
def bcbOnceRecovery : BCB :=
  { command := bootonceCmdStr ++ "recovery".toList
    status := ['s', 't', 'a', 'l', 'e']
    recovery := []
    stage := [] }

/-- BCB environment reading `bcbOnceRecovery` from `misc`. -/
def bcbEnvOnce : BcbEnv :=
  { readBcb := some bcbOnceRecovery
    fileExists := fun _ => false
    nameToTarget := fun n => if n = "recovery".toList then .RECOVERY else .UNKNOWN_TARGET }

/-- Slot rollback assertions used by the partial-advance counterexample:
locations 0 and 1 assert index 5, everything else is unused. -/
def rbCx : Nat → Nat := fun n => if n = 0 then 5 else if n = 1 then 5 else 0

/-- Reads always succeed in the counterexample. -/
def roCx : Nat → Bool := fun _ => true

/-- The write at location 1 fails in the counterexample. -/
def woCx : Nat → Bool := fun n => decide (n ≠ 1)

/-- All stored rollback indexes start at 0 in the counterexample. -/
def storedCx : Nat → Nat := fun _ => 0

/-- Rollback assertions used by witnesses: location 0 asserts 7. -/
def rbW : Nat → Nat := fun n => if n = 0 then 7 else 0

/-- All reads and writes succeed in the witnesses. -/
def ioOkW : Nat → Bool := fun _ => true

/-- All stored rollback indexes start at 3 in the witnesses. -/
def storedW : Nat → Nat := fun _ => 3

theorem rollbackStep_le (rb : Nat → Nat) (ro wo : Nat → Bool) (locs : List Nat) :
    ∀ (stored : Nat → Nat) (loc : Nat),
      stored loc ≤ (rollbackStep rb ro wo locs stored).2 loc := by
  induction locs with
  | nil => intro stored loc; simp [rollbackStep]
  | cons n rest ih =>
    intro stored loc
    simp only [rollbackStep]
    split_ifs with h1 h2 h3 h4
    · refine le_trans ?_ (ih _ loc)
      by_cases h5 : loc = n
      · subst h5; simp; omega
      · simp [h5]
    · simp
    · exact ih _ loc
    · simp
    · exact ih _ loc

theorem rollbackStep_change (rb : Nat → Nat) (ro wo : Nat → Bool) (locs : List Nat) :
    ∀ (stored : Nat → Nat) (loc : Nat),
      (rollbackStep rb ro wo locs stored).2 loc ≠ stored loc →
      0 < rb loc ∧ stored loc < rb loc ∧
        (rollbackStep rb ro wo locs stored).2 loc = rb loc := by
  induction locs with
  | nil => intro stored loc h; simp [rollbackStep] at h
  | cons n rest ih =>
    intro stored loc h
    simp only [rollbackStep] at h ⊢
    split_ifs at h ⊢ with h1 h2 h3 h4
    · by_cases h5 : loc = n
      · subst h5
        by_cases h6 :
            (rollbackStep rb ro wo rest
              fun m => if m = loc then rb loc else stored m).2 loc = rb loc
        · exact ⟨h1, h3, h6⟩
        · have h7 :
              (rollbackStep rb ro wo rest
                fun m => if m = loc then rb loc else stored m).2 loc ≠
              (fun m => if m = loc then rb loc else stored m) loc := by
            simpa using h6
          exact ⟨h1, h3, (ih _ loc h7).2.2⟩
      · have h7 :
            (rollbackStep rb ro wo rest
              fun m => if m = n then rb n else stored m).2 loc ≠
            (fun m => if m = n then rb n else stored m) loc := by
          simpa [h5] using h
        have h8 := ih _ loc h7
        refine ⟨h8.1, ?_, h8.2.2⟩
        simpa [h5] using h8.2.1
    · simp at h
    · exact ih _ loc h
    · simp at h
    · exact ih _ loc h

theorem rollbackStep_true_max (rb : Nat → Nat) (ro wo : Nat → Bool) (locs : List Nat) :
    ∀ (stored : Nat → Nat),
      (rollbackStep rb ro wo locs stored).1 = true →
      ∀ loc ∈ locs,
        (rollbackStep rb ro wo locs stored).2 loc = max (stored loc) (rb loc) := by
  induction locs with
  | nil => intro stored _ loc hmem; simp at hmem
  | cons n rest ih =>
    intro stored htrue loc hmem
    simp only [rollbackStep] at htrue ⊢
    by_cases h1 : 0 < rb n
    · rw [if_pos h1] at htrue ⊢
      by_cases h2 : ro n = true
      · rw [if_pos h2] at htrue ⊢
        by_cases h3 : stored n < rb n
        · rw [if_pos h3] at htrue ⊢
          by_cases h4 : wo n = true
          · rw [if_pos h4] at htrue ⊢
            rcases List.mem_cons.mp hmem with h5 | h5
            · subst h5
              rw [Nat.max_eq_right (Nat.le_of_lt h3)]
              by_cases h6 :
                  (rollbackStep rb ro wo rest
                    fun m => if m = loc then rb loc else stored m).2 loc = rb loc
              · exact h6
              · have h7 :
                    (rollbackStep rb ro wo rest
                      fun m => if m = loc then rb loc else stored m).2 loc ≠
                    (fun m => if m = loc then rb loc else stored m) loc := by
                  intro hx
                  apply h6
                  rw [hx]
                  simp
                exact (rollbackStep_change rb ro wo rest _ loc h7).2.2
            · have h7 := ih _ htrue loc h5
              by_cases h6 : loc = n
              · subst h6
                rw [h7, Nat.max_eq_right (Nat.le_of_lt h3)]
                simp
              · rw [h7]
                simp [h6]
          · rw [if_neg h4] at htrue
            simp at htrue
        · rw [if_neg h3] at htrue ⊢
          rcases List.mem_cons.mp hmem with h5 | h5
          · subst h5
            rw [Nat.max_eq_left (Nat.le_of_not_lt h3)]
            by_cases h6 : (rollbackStep rb ro wo rest stored).2 loc = stored loc
            · exact h6
            · exact absurd (rollbackStep_change rb ro wo rest stored loc h6).2.1 h3
          · exact ih _ htrue loc h5
      · rw [if_neg h2] at htrue
        simp at htrue
    · rw [if_neg h1] at htrue ⊢
      rcases List.mem_cons.mp hmem with h5 | h5
      · subst h5
        have h0 : rb loc = 0 := Nat.eq_zero_of_not_pos h1
        rw [Nat.max_eq_left (by omega)]
        by_cases h6 : (rollbackStep rb ro wo rest stored).2 loc = stored loc
        · exact h6
        · have := (rollbackStep_change rb ro wo rest stored loc h6).1
          omega
      · exact ih _ htrue loc h5

theorem rollbackStep_allOk (rb : Nat → Nat) (ro wo : Nat → Bool) (locs : List Nat) :
    ∀ (stored : Nat → Nat), (∀ n ∈ locs, ro n = true ∧ wo n = true) →
      (rollbackStep rb ro wo locs stored).1 = true := by
  induction locs with
  | nil => intro stored _; simp [rollbackStep]
  | cons n rest ih =>
    intro stored hio
    have hn := hio n (List.mem_cons_self n rest)
    simp only [rollbackStep]
    split_ifs with h1 h2 h3 h4
    · exact ih _ (fun m hm => hio m (List.mem_cons_of_mem n hm))
    · exact absurd hn.2 h4
    · exact ih _ (fun m hm => hio m (List.mem_cons_of_mem n hm))
    · exact absurd hn.1 h2
    · exact ih _ (fun m hm => hio m (List.mem_cons_of_mem n hm))

/-- Claim C2: `avb_update_stored_rollback_indexes_for_slot` never decreases
any stored rollback index; a location's stored value changes only when the
slot asserts a non-zero index strictly greater than the stored value (and
then to exactly that index); and when the function returns true, every
location below `AVB_MAX_NUMBER_OF_ROLLBACK_INDEX_LOCATIONS` ends at
`max(stored_before, asserted)`. -/
theorem avb_rollback_update_monotone_max (rollback : Nat → Nat)
    (readOk writeOk : Nat → Bool) (stored : Nat → Nat) (loc : Nat) :
    stored loc ≤
      (avb_update_stored_rollback_indexes_for_slot rollback readOk writeOk stored).2 loc ∧
    ((avb_update_stored_rollback_indexes_for_slot rollback readOk writeOk stored).2 loc ≠
        stored loc →
      0 < rollback loc ∧ stored loc < rollback loc ∧
        (avb_update_stored_rollback_indexes_for_slot rollback readOk writeOk stored).2 loc =
          rollback loc) ∧
    ((avb_update_stored_rollback_indexes_for_slot rollback readOk writeOk stored).1 = true →
      loc < AVB_MAX_NUMBER_OF_ROLLBACK_INDEX_LOCATIONS →
      (avb_update_stored_rollback_indexes_for_slot rollback readOk writeOk stored).2 loc =
        max (stored loc) (rollback loc)) := by
  refine ⟨rollbackStep_le rollback readOk writeOk _ stored loc,
    fun h => rollbackStep_change rollback readOk writeOk _ stored loc h,
    fun h1 h2 => rollbackStep_true_max rollback readOk writeOk _ stored h1 loc
      (List.mem_range.mpr h2)⟩

/-- Claim C2 witness: with location 0 asserting index 7 over a stored 3
and all I/O succeeding, the update ends at the maximum. -/
theorem avb_rollback_update_monotone_max_witness :
    (avb_update_stored_rollback_indexes_for_slot rbW ioOkW ioOkW storedW).2 0 =
      max (storedW 0) (rbW 0) :=
  (avb_rollback_update_monotone_max rbW ioOkW ioOkW storedW 0).2.2 (by decide) (by decide)

/-- Claim C4 counterexample: with locations 0 and 1 both asserting index 5
over stored 0 and the write at location 1 failing, the update returns
false, yet location 0 has already been advanced — so "when it returns
false, no stored rollback index differs from its value before the call"
is violated. -/
theorem avb_rollback_partial_advance_on_io_error :
    (avb_update_stored_rollback_indexes_for_slot rbCx roCx woCx storedCx).1 = false ∧
    (avb_update_stored_rollback_indexes_for_slot rbCx roCx woCx storedCx).2 0 ≠
      storedCx 0 := by
  decide

theorem rollbackStep_true_io (rb : Nat → Nat) (ro wo : Nat → Bool) (locs : List Nat) :
    ∀ (stored : Nat → Nat),
      (rollbackStep rb ro wo locs stored).1 = true →
      ∀ n ∈ locs, 0 < rb n →
        ro n = true ∧ (stored n < rb n → wo n = true) := by
  induction locs with
  | nil => intro stored _ n hmem; simp at hmem
  | cons m rest ih =>
    intro stored htrue n hmem hrb
    simp only [rollbackStep] at htrue
    split_ifs at htrue with h1 h2 h3 h4
    · rcases List.mem_cons.mp hmem with h5 | h5
      · subst h5
        exact ⟨h2, fun _ => h4⟩
      · by_cases h6 : n = m
        · subst h6
          exact ⟨h2, fun _ => h4⟩
        · have h7 := ih _ htrue n h5 hrb
          refine ⟨h7.1, fun hlt => h7.2 ?_⟩
          simpa [h6] using hlt
    · rcases List.mem_cons.mp hmem with h5 | h5
      · subst h5
        exact ⟨h2, fun hlt => absurd hlt h3⟩
      · exact ih _ htrue n h5 hrb
    · rcases List.mem_cons.mp hmem with h5 | h5
      · subst h5
        exact absurd hrb h1
      · exact ih _ htrue n h5 hrb

/-- Claim C4 (amended): any underlying I/O error the loop exercises — a
failed read at a location with a non-zero asserted index, or a failed
write at a location needing an advance — makes the update return false;
when every read and write succeeds it returns true; and even on failure
no stored rollback index is ever decreased, though locations already
processed keep any advances written before the failing location. -/
theorem avb_rollback_abort_monotone (rollback : Nat → Nat)
    (readOk writeOk : Nat → Bool) (stored : Nat → Nat) (loc : Nat) :
    stored loc ≤
      (avb_update_stored_rollback_indexes_for_slot rollback readOk writeOk stored).2 loc ∧
    (0 < rollback loc → loc < AVB_MAX_NUMBER_OF_ROLLBACK_INDEX_LOCATIONS →
      (readOk loc = false ∨ (stored loc < rollback loc ∧ writeOk loc = false)) →
      (avb_update_stored_rollback_indexes_for_slot rollback readOk writeOk stored).1 =
        false) ∧
    ((List.range AVB_MAX_NUMBER_OF_ROLLBACK_INDEX_LOCATIONS).all
        (fun n => readOk n && writeOk n) = true →
      (avb_update_stored_rollback_indexes_for_slot rollback readOk writeOk stored).1 =
        true) := by
  refine ⟨?_, ?_, ?_⟩
  · exact rollbackStep_le rollback readOk writeOk _ stored loc
  · intro hrb hloc hio
    cases hres : (avb_update_stored_rollback_indexes_for_slot rollback readOk
        writeOk stored).1 with
    | false => rfl
    | true =>
      exfalso
      have h := rollbackStep_true_io rollback readOk writeOk
        (List.range AVB_MAX_NUMBER_OF_ROLLBACK_INDEX_LOCATIONS) stored hres loc
        (List.mem_range.mpr hloc) hrb
      rcases hio with hio | ⟨hlt2, hio⟩
      · rw [h.1] at hio
        exact Bool.noConfusion hio
      · rw [h.2 hlt2] at hio
        exact Bool.noConfusion hio
  · intro h
    refine rollbackStep_allOk rollback readOk writeOk _ stored ?_
    intro n hn
    have := List.all_eq_true.mp h n hn
    constructor
    · exact (Bool.and_eq_true_iff.mp this).1
    · exact (Bool.and_eq_true_iff.mp this).2

/-- Claim C4 amended witness: the write failure at location 1 of the
counterexample environment forces a false return, and when every read and
write succeeds the update reports success. -/
theorem avb_rollback_abort_monotone_witness :
    (avb_update_stored_rollback_indexes_for_slot rbCx roCx woCx storedCx).1 = false ∧
    (avb_update_stored_rollback_indexes_for_slot rbW ioOkW ioOkW storedW).1 = true :=
  ⟨(avb_rollback_abort_monotone rbCx roCx woCx storedCx 1).2.1 (by decide) (by decide)
      (Or.inr ⟨by decide, by decide⟩),
    (avb_rollback_abort_monotone rbW ioOkW ioOkW storedW 0).2.2 (by decide)⟩

/-- Claim C3 (code divergence): a down-arrow key seen at boot but not held
for the 2-second delay makes `check_magic_key` return NORMAL_BOOT, not the
RECOVERY the claim (and the policy comment above `choose_boot_target`)
promises; when the key is held the function does return FASTBOOT. -/
theorem check_magic_key_short_press_normal_boot :
    check_magic_key shortPressEnv = BootTarget.NORMAL_BOOT ∧
    check_magic_key longPressEnv = BootTarget.FASTBOOT ∧
    BootTarget.NORMAL_BOOT ≠ BootTarget.RECOVERY := by
  refine ⟨by decide, by decide, by decide⟩

/-- Claim C5 counterexample: in an environment where the only matching
checks are a DNX reboot target and a low battery, `choose_boot_target`
returns CHARGER while the first non-NORMAL_BOOT check result is DNX —
so "the first check producing a non-NORMAL_BOOT result wins" fails. -/
theorem choose_boot_target_dnx_not_first_match :
    choose_boot_target dnxEnv = BootTarget.CHARGER ∧
    choose_boot_target_spec dnxEnv = BootTarget.DNX ∧
    BootTarget.CHARGER ≠ BootTarget.DNX := by
  decide

/-- Claim C5 (amended): `choose_boot_target` is the first-non-NORMAL_BOOT
reduction of the check results in the claimed priority order, except that
a DNX result from the LoaderEntryOneShot check is treated as NORMAL_BOOT
(it falls through to the battery and charger checks). -/
theorem choose_boot_target_priority_amended (env : TargetEnv) :
    choose_boot_target env =
      first_non_normal
        [env.check_command_line, env.check_fastboot_sentinel, env.check_magic_key,
         env.check_watchdog, env.check_battery_inserted, env.check_bcb,
         (if env.check_loader_entry_one_shot = BootTarget.DNX then BootTarget.NORMAL_BOOT
          else env.check_loader_entry_one_shot),
         env.check_battery, env.check_charge_mode] := by
  simp only [choose_boot_target, first_non_normal, ne_eq, ite_not]
  by_cases hd : env.check_loader_entry_one_shot = BootTarget.DNX <;>
    by_cases hn : env.check_loader_entry_one_shot = BootTarget.NORMAL_BOOT <;>
      by_cases hc : env.check_charge_mode = BootTarget.NORMAL_BOOT <;>
        simp [hd, hn, hc]

theorem bootCmd_not_pre_of_bootonce (rest : List Char) :
    bootCmdStr.isPrefixOf (bootonceCmdStr ++ rest) = false := rfl

theorem bootonce_pre_self (rest : List Char) :
    bootonceCmdStr.isPrefixOf (bootonceCmdStr ++ rest) = true := by
  simp [bootonceCmdStr, List.isPrefixOf]

theorem bootCmd_pre_self (rest : List Char) :
    bootCmdStr.isPrefixOf (bootCmdStr ++ rest) = true := by
  simp [bootCmdStr, List.isPrefixOf]

/-- Claim C6: on a BCB whose command starts with "bootonce-", `check_bcb`
reports oneshot and the record it writes back has an empty command (so a
later `read_bcb` sees an empty command); whenever the incoming status is
non-empty a write-back happens, every written-back record has an empty
status, and a "boot-" command is carried into the write-back unchanged. -/
theorem check_bcb_oneshot_and_status_clear (env : BcbEnv) (bcb : BCB)
    (rest : List Char) (hread : env.readBcb = some bcb) :
    (bcb.command = bootonceCmdStr ++ rest →
      (check_bcb env).oneshot = true ∧
      Option.map BCB.command (check_bcb env).written = some []) ∧
    (bcb.status ≠ [] → ((check_bcb env).written).isSome = true) ∧
    (Option.map BCB.status (check_bcb env).written).getD [] = [] ∧
    (bcb.command = bootCmdStr ++ rest →
      (Option.map BCB.command (check_bcb env).written).getD bcb.command =
        bcb.command) := by
  obtain ⟨cmd, st, rcv, stg⟩ := bcb
  refine ⟨?_, ?_, ?_, ?_⟩
  · intro hc
    simp only at hc
    subst hc
    simp [check_bcb, hread, bootCmd_not_pre_of_bootonce, bootonce_pre_self]
  · intro hst
    simp only at hst
    simp [check_bcb, hread]
    cases hb : bootCmdStr.isPrefixOf cmd <;>
      cases ho : bootonceCmdStr.isPrefixOf cmd <;>
        simp [hb, ho, hst]
  · simp [check_bcb, hread]
    cases hb : bootCmdStr.isPrefixOf cmd <;>
      cases ho : bootonceCmdStr.isPrefixOf cmd <;>
        simp [hb, ho] <;>
          split <;> simp
  · intro hc
    simp only at hc
    subst hc
    simp [check_bcb, hread, bootCmd_pre_self]
    split <;> simp

/-- Claim C6 witness: reading a BCB with command "bootonce-recovery" and a
stale status yields oneshot and a write-back with the command erased. -/
theorem check_bcb_oneshot_witness :
    (check_bcb bcbEnvOnce).oneshot = true ∧
    Option.map BCB.command (check_bcb bcbEnvOnce).written = some [] := by
  have h := check_bcb_oneshot_and_status_clear bcbEnvOnce bcbOnceRecovery
    ("recovery".toList) rfl
  exact h.1 rfl

/-- Claim C1: with a loaded partition whose header magic is correct, the
trust-state mapping of `get_avb_result` / `get_avb_flow_result` follows
the adapter table — on OK the state is kept unless
`allow_verification_error` raises it to ORANGE (i.e. the maximum with
ORANGE), and on every error outcome it becomes ORANGE when
`allow_verification_error` holds and the state is at most ORANGE,
otherwise RED — and the loaders consult the verifier only at the flag
`allow_verification_error = (incoming boot_state != GREEN)`: two
environments agreeing there produce identical loader results. -/
theorem get_avb_result_trust_state_table
    (d : AvbSlotVerifyData) (b : AvbPartitionData) (rest : List AvbPartitionData)
    (allow : Bool) (vr : AvbSlotVerifyResult) (fr : AvbABFlowResult) (bs : Nat)
    (env1 env2 : AvbLoadEnv)
    (hd : d.loaded_partitions = b :: rest)
    (hm : b.magic = BOOT_MAGIC)
    (hinit : env1.avbInitOk = env2.avbInitOk)
    (hslot : env1.useSlot = env2.useSlot)
    (hactive : env1.slotActive = env2.slotActive)
    (hsv : ∀ s, env1.slotVerify s (bs != BOOT_STATE_GREEN) =
                env2.slotVerify s (bs != BOOT_STATE_GREEN))
    (hab : env1.abFlow (bs != BOOT_STATE_GREEN) =
           env2.abFlow (bs != BOOT_STATE_GREEN)) :
    ((get_avb_result (some d) allow .OK bs).2 =
      if allow = true then max bs BOOT_STATE_ORANGE else bs) ∧
    (vr ≠ .OK →
      (get_avb_result (some d) allow vr bs).2 =
        if allow = true ∧ bs ≤ BOOT_STATE_ORANGE then BOOT_STATE_ORANGE
        else BOOT_STATE_RED) ∧
    ((get_avb_flow_result (some d) allow .OK bs).2 =
      if allow = true then max bs BOOT_STATE_ORANGE else bs) ∧
    (fr ≠ .OK →
      (get_avb_flow_result (some d) allow fr bs).2 =
        if allow = true ∧ bs ≤ BOOT_STATE_ORANGE then BOOT_STATE_ORANGE
        else BOOT_STATE_RED) ∧
    android_image_load_partition_avb env1 bs =
      android_image_load_partition_avb env2 bs ∧
    android_image_load_partition_avb_ab env1 bs =
      android_image_load_partition_avb_ab env2 bs := by
  have hsuffix : avbActiveSuffix env1 = avbActiveSuffix env2 := by
    simp [avbActiveSuffix, hslot, hactive]
  refine ⟨?_, ?_, ?_, ?_, ?_, ?_⟩
  · cases allow
    · simp [get_avb_result, hd, hm]
    · rcases Nat.lt_or_ge bs BOOT_STATE_ORANGE with h | h
      · simp [get_avb_result, hd, hm, h, Nat.max_eq_right (Nat.le_of_lt h)]
      · simp [get_avb_result, hd, hm, Nat.not_lt.mpr h, Nat.max_eq_left h]
  · intro hvr
    cases vr <;> simp_all [get_avb_result, hd, hm]
  · cases allow
    · simp [get_avb_flow_result, hd, hm]
    · rcases Nat.lt_or_ge bs BOOT_STATE_ORANGE with h | h
      · simp [get_avb_flow_result, hd, hm, h, Nat.max_eq_right (Nat.le_of_lt h)]
      · simp [get_avb_flow_result, hd, hm, Nat.not_lt.mpr h, Nat.max_eq_left h]
  · intro hfr
    cases fr <;> simp_all [get_avb_flow_result, hd, hm]
  · simp [android_image_load_partition_avb, hinit, hsuffix, hsv]
  · simp [android_image_load_partition_avb_ab, hab]

/-- Claim C1 witness: at a GREEN incoming state with
`allow_verification_error` set, OK keeps the computed maximum (ORANGE) and
an IO error also maps to ORANGE. -/
theorem get_avb_result_trust_state_table_witness :
    (get_avb_result (some goodSlotData) true .OK BOOT_STATE_GREEN).2 =
      BOOT_STATE_ORANGE ∧
    (get_avb_result (some goodSlotData) true .ERROR_IO_FAILURE BOOT_STATE_GREEN).2 =
      BOOT_STATE_ORANGE := by
  have h := get_avb_result_trust_state_table goodSlotData goodPartition []
    true .ERROR_IO_FAILURE .ERROR_IO_FAILURE BOOT_STATE_GREEN goodLoadEnv goodLoadEnv
    rfl rfl rfl rfl rfl (fun _ => rfl) rfl
  constructor
  · have h1 := h.1
    simpa [BOOT_STATE_GREEN, BOOT_STATE_ORANGE] using h1
  · have h2 := h.2.1 (by decide)
    simpa [BOOT_STATE_GREEN, BOOT_STATE_ORANGE] using h2

/-- Claim C7: the ORANGE trust state is latched across the load/validate
stage of `efi_main` — an ORANGE incoming state is still ORANGE after
`validate_bootimage` returns, whatever its verdict — and no stage lowers a
previously raised state: the load/validate stage never lowers a GREEN or
ORANGE incoming state, and the `get_avb_result` / `get_avb_flow_result`
adapters never lower any boot state in the valid range. -/
theorem boot_state_orange_latched_monotone
    (recovery_in_boot load_ok : Bool) (verify_state st bs : Nat)
    (target_name : List Char) (bt : BootTarget) (d : AvbSlotVerifyData)
    (allow : Bool) (vr : AvbSlotVerifyResult) (fr : AvbABFlowResult)
    (hst : st = BOOT_STATE_GREEN ∨ st = BOOT_STATE_ORANGE)
    (hbs : bs ≤ BOOT_STATE_RED) :
    efi_main_update_boot_state true BOOT_STATE_ORANGE
      (validate_bootimage recovery_in_boot verify_state target_name bt) =
      BOOT_STATE_ORANGE ∧
    st ≤ efi_main_update_boot_state load_ok st
      (validate_bootimage recovery_in_boot verify_state target_name bt) ∧
    bs ≤ (get_avb_result (some d) allow vr bs).2 ∧
    bs ≤ (get_avb_flow_result (some d) allow fr bs).2 := by
  refine ⟨?_, ?_, ?_, ?_⟩
  · simp [efi_main_update_boot_state]
  · rcases hst with h | h <;> subst h
    · simp [BOOT_STATE_GREEN]
    · cases load_ok <;>
        simp [efi_main_update_boot_state, BOOT_STATE_ORANGE, BOOT_STATE_RED]
  · obtain ⟨parts, suf⟩ := d
    cases parts with
    | nil => simp [get_avb_result]
    | cons b bs' =>
      by_cases hm : b.magic = BOOT_MAGIC
      · cases vr <;>
          simp only [get_avb_result, hm, ne_eq, not_true_eq_false, if_false,
            BOOT_STATE_ORANGE, BOOT_STATE_RED] <;>
          split_ifs <;>
          simp_all [BOOT_STATE_ORANGE, BOOT_STATE_RED] <;> omega
      · simp [get_avb_result, hm]
  · obtain ⟨parts, suf⟩ := d
    cases parts with
    | nil => simp [get_avb_flow_result]
    | cons b bs' =>
      by_cases hm : b.magic = BOOT_MAGIC
      · cases fr <;>
          simp only [get_avb_flow_result, hm, ne_eq, not_true_eq_false, if_false,
            BOOT_STATE_ORANGE, BOOT_STATE_RED] <;>
          split_ifs <;>
          simp_all [BOOT_STATE_ORANGE, BOOT_STATE_RED] <;> omega
      · simp [get_avb_flow_result, hm]

/-- Claim C7 witness: an ORANGE state entering the load/validate stage
stays ORANGE when validation reports RED for a wrong target name. -/
theorem boot_state_orange_latched_monotone_witness :
    efi_main_update_boot_state true BOOT_STATE_ORANGE
      (validate_bootimage false BOOT_STATE_GREEN recoveryNameStr .CHARGER) =
      BOOT_STATE_ORANGE ∧
    BOOT_STATE_ORANGE ≤
      (get_avb_result (some goodSlotData) true .ERROR_IO_FAILURE BOOT_STATE_ORANGE).2 := by
  have h := boot_state_orange_latched_monotone false true BOOT_STATE_GREEN
    BOOT_STATE_ORANGE BOOT_STATE_ORANGE recoveryNameStr .CHARGER goodSlotData
    true .ERROR_IO_FAILURE .ERROR_IO_FAILURE (Or.inr rfl) (by decide)
  exact ⟨h.1, h.2.2.1⟩

/-- Claim C8: a loaded payload whose first 8 bytes differ from
`BOOT_MAGIC` is rejected by `get_avb_result` and `get_avb_flow_result`
with NOT_FOUND before any verdict mapping, for every verifier outcome and
every `allow_verification_error`; the loaders then return a null
bootimage and force the boot state RED, so the payload is never passed
onward. -/
theorem wrong_magic_rejected_not_found
    (d : AvbSlotVerifyData) (b : AvbPartitionData) (rest : List AvbPartitionData)
    (allow : Bool) (vr : AvbSlotVerifyResult) (fr : AvbABFlowResult) (bs : Nat)
    (env : AvbLoadEnv)
    (hd : d.loaded_partitions = b :: rest)
    (hm : b.magic ≠ BOOT_MAGIC)
    (hinit : env.avbInitOk = true)
    (hsv : ∀ s a, env.slotVerify s a = (vr, some d))
    (hab : ∀ a, env.abFlow a = (fr, some d)) :
    get_avb_result (some d) allow vr bs = (.NOT_FOUND, bs) ∧
    get_avb_flow_result (some d) allow fr bs = (.NOT_FOUND, bs) ∧
    android_image_load_partition_avb env bs = (.NOT_FOUND, none, BOOT_STATE_RED) ∧
    android_image_load_partition_avb_ab env bs =
      { status := .NOT_FOUND, bootimage := none, boot_state := BOOT_STATE_RED,
        cachedSuffix := none } := by
  have h1 : get_avb_result (some d) allow vr bs = (.NOT_FOUND, bs) := by
    simp [get_avb_result, hd, hm]
  have h2 : get_avb_flow_result (some d) allow fr bs = (.NOT_FOUND, bs) := by
    simp [get_avb_flow_result, hd, hm]
  refine ⟨h1, h2, ?_, ?_⟩
  · have h1a : get_avb_result (some d) (bs != BOOT_STATE_GREEN) vr bs =
        (.NOT_FOUND, bs) := by
      simp [get_avb_result, hd, hm]
    simp [android_image_load_partition_avb, hinit, hsv, h1a]
  · have h2a : get_avb_flow_result (some d) (bs != BOOT_STATE_GREEN) fr bs =
        (.NOT_FOUND, bs) := by
      simp [get_avb_flow_result, hd, hm]
    simp [android_image_load_partition_avb_ab, hab, h2a]

/-- Claim C8 witness: a wrong-magic payload at GREEN incoming state is
rejected with NOT_FOUND, no image is returned, and the state goes RED. -/
theorem wrong_magic_rejected_not_found_witness :
    get_avb_result (some badSlotData) false .OK BOOT_STATE_GREEN =
      (.NOT_FOUND, BOOT_STATE_GREEN) ∧
    android_image_load_partition_avb badMagicLoadEnv BOOT_STATE_GREEN =
      (.NOT_FOUND, none, BOOT_STATE_RED) := by
  have h := wrong_magic_rejected_not_found badSlotData badPartition []
    false .OK .OK BOOT_STATE_GREEN badMagicLoadEnv
    rfl (by decide) rfl (fun _ _ => rfl) (fun _ => rfl)
  exact ⟨h.1, h.2.2.1⟩

theorem rootfs_ne_slotsuffix (s : List Char) :
    avbRootfsFragment ≠ slotSuffixFragment s := by
  intro h
  have h2 : ('s' : Char) = 'a' := congrArg (fun l => l.headD 'x') h
  exact absurd h2 (by decide)

theorem rootfs_ne_partuuid (u : List Char) :
    avbRootfsFragment ≠ rootPartuuidFragment u := by
  intro h
  have h2 : ('s' : Char) = ' ' := congrArg (fun l => l.headD 'x') h
  exact absurd h2 (by decide)

/-- Claim C9 counterexample: with slots in use, for the RECOVERY target and
a verified cmdline without `root=`, `prepend_slot_command_line` still
prepends ` root=PARTUUID=<uuid>` (the claim says the prepend is omitted
entirely for RECOVERY and MEMORY); and for NORMAL_BOOT with a cmdline that
already contains `root=`, the `skip_initramfs` fragment is still
prepended (the claim conditions the prepend on `root=` being absent). -/
theorem prepend_slot_cmdline_root_partuuid_recovery :
    rootPartuuidFragment ['u'] ∈
      (prepend_slot_command_line slotCmdEnvA .RECOVERY (some []) []).2 ∧
    avbRootfsFragment ∈
      (prepend_slot_command_line slotCmdEnvA .NORMAL_BOOT
        (some ("root=/dev/sda".toList)) []).2 := by
  decide

/-- Claim C9 (amended): with slots in use, the fragment
`skip_initramfs rootwait ro init=/init` is prepended for every target
except RECOVERY and MEMORY, regardless of the verified cmdline; and
independently, for every target (including RECOVERY and MEMORY), when the
verified cmdline does not contain `root=` and the system-partition UUID
resolves, the separate fragment ` root=PARTUUID=<uuid>` is prepended. -/
theorem prepend_slot_cmdline_fragments (env : SlotCmdEnv) (bt : BootTarget)
    (vc : List Char) (c : List (List Char)) (u : List Char)
    (hslot : env.useSlot = true) :
    (bt ≠ .RECOVERY → bt ≠ .MEMORY →
      avbRootfsFragment ∈ (prepend_slot_command_line env bt (some vc) c).2) ∧
    ((bt = .RECOVERY ∨ bt = .MEMORY) → avbRootfsFragment ∉ c →
      avbRootfsFragment ∉ (prepend_slot_command_line env bt (some vc) c).2) ∧
    (strstrFound rootSubstr vc = false → env.systemUuid = some u →
      rootPartuuidFragment u ∈ (prepend_slot_command_line env bt (some vc) c).2) := by
  refine ⟨?_, ?_, ?_⟩
  · intro h1 h2
    simp only [prepend_slot_command_line, avb_prepend_command_line_rootfs,
      if_neg (not_or.mpr ⟨h1, h2⟩)]
    cases hsa : env.slotActive <;>
      cases hss : strstrFound rootSubstr vc <;>
        cases hsu : env.systemUuid <;>
          simp [hslot, hsa, hss, hsu]
  · intro h1 h2
    simp only [prepend_slot_command_line, avb_prepend_command_line_rootfs,
      if_pos h1]
    cases hsa : env.slotActive <;>
      cases hss : strstrFound rootSubstr vc <;>
        cases hsu : env.systemUuid <;>
          simp [hslot, hsa, hss, hsu, h2, rootfs_ne_slotsuffix, rootfs_ne_partuuid]
  · intro hss hsu
    simp only [prepend_slot_command_line, avb_prepend_command_line_rootfs]
    by_cases hb : bt = BootTarget.RECOVERY ∨ bt = BootTarget.MEMORY <;>
      cases hsa : env.slotActive <;>
        simp [hslot, hb, hsa, hsu, hss]

/-- Claim C9 amended witness: for NORMAL_BOOT with an empty verified
cmdline, both fragments appear in the result. -/
theorem prepend_slot_cmdline_fragments_witness :
    avbRootfsFragment ∈
      (prepend_slot_command_line slotCmdEnvA .NORMAL_BOOT (some []) []).2 ∧
    rootPartuuidFragment ['u'] ∈
      (prepend_slot_command_line slotCmdEnvA .NORMAL_BOOT (some []) []).2 := by
  have h := prepend_slot_cmdline_fragments slotCmdEnvA .NORMAL_BOOT [] [] ['u'] rfl
  exact ⟨h.1 (by decide) (by decide), h.2.2 (by decide) rfl⟩

/-- Claim C10: for every boot target outside NORMAL_BOOT, MEMORY, CHARGER,
RECOVERY and ESP_BOOTIMAGE, no expected target name exists, so
`validate_bootimage` returns RED even when the signature verification
succeeded with GREEN or YELLOW. -/
theorem validate_bootimage_unexpected_target_red
    (recovery_in_boot : Bool) (verify_state : Nat) (target_name : List Char)
    (bt : BootTarget)
    (hbt : bt ≠ .NORMAL_BOOT ∧ bt ≠ .MEMORY ∧ bt ≠ .CHARGER ∧
           bt ≠ .RECOVERY ∧ bt ≠ .ESP_BOOTIMAGE)
    (hvs : verify_state = BOOT_STATE_GREEN ∨ verify_state = BOOT_STATE_YELLOW) :
    validate_bootimage recovery_in_boot verify_state target_name bt =
      BOOT_STATE_RED := by
  obtain ⟨h1, h2, h3, h4, h5⟩ := hbt
  have hvr : verify_state ≠ BOOT_STATE_RED := by
    rcases hvs with h | h <;>
      simp [h, BOOT_STATE_GREEN, BOOT_STATE_YELLOW, BOOT_STATE_RED]
  cases bt <;> simp_all [validate_bootimage, expectedLabel, expectedLabel2]

/-- Claim C10 witness: a FASTBOOT target with a GREEN verification and
target name `/boot` is still forced RED. -/
theorem validate_bootimage_unexpected_target_red_witness :
    validate_bootimage false BOOT_STATE_GREEN bootNameStr .FASTBOOT =
      BOOT_STATE_RED :=
  validate_bootimage_unexpected_target_red false BOOT_STATE_GREEN bootNameStr
    .FASTBOOT (by decide) (Or.inl rfl)
